import Mathlib

/-!
Verification development for the OpenVBI core: a shallow embedding of the
CAN frame decoder (openvbi/adaptors/ydvr.py), the interpolation table
(openvbi/core/interpolation.py), the packet statistics and time-source
selection (openvbi/core/statistics.py, openvbi/core/timebase.py), the raw
observation accessors (openvbi/core/observations.py), and the binary logger
packet codec (openvbi/adaptors/logger_file.py), together with proofs about
the embedded definitions.

Modelling conventions:
* Python ints are `Nat`/`Int`; byte strings are `List Nat` with each element
  a byte value; IEEE-754 doubles are modelled as exact rationals (`Rat`) in
  the field-level codec, and kept as uninterpreted 8-byte groups in the
  byte-level codec, since no property proved here depends on rounding.
* Python exceptions become explicit error values (`Except`/`Option`), and a
  method that can raise after partially mutating its object is modelled as a
  function returning the object state at raise time, paired with the error.
* `struct.unpack` fails exactly when the buffer length differs from the
  format size; `struct.unpack_from` fails exactly when the buffer is shorter
  than offset plus format size.  Both behaviours are reproduced literally.
-/

set_option maxHeartbeats 1000000
set_option linter.unnecessarySeqFocus false
set_option linter.unreachableTactic false
set_option linter.unusedTactic false

deriving instance DecidableEq for Except

namespace OpenVBI

/-! ## Byte-level helpers for the binary formats -/

/-- Byte of a buffer at a given index, matching indexed access into a Python
bytes object that has already been length-checked (out-of-range reads are
never reached on the guarded paths; they default to 0). -/
def byteAt (b : List Nat) (i : Nat) : Nat := b.getD i 0

/-- Little-endian u16 read at an offset, as done by struct format H. -/
def u16at (b : List Nat) (i : Nat) : Nat := byteAt b i + 256 * byteAt b (i + 1)

/-- Little-endian u32 read at an offset, as done by struct formats I and L. -/
def u32at (b : List Nat) (i : Nat) : Nat :=
  byteAt b i + 256 * byteAt b (i + 1) + 65536 * byteAt b (i + 2) + 16777216 * byteAt b (i + 3)

/-- Little-endian i16 read at an offset, as done by struct format h. -/
def i16at (b : List Nat) (i : Nat) : Int :=
  let v := u16at b i
  if v < 32768 then (v : Int) else (v : Int) - 65536

/-- Raw bytes of an IEEE double field (struct format d), kept uninterpreted. -/
def f64at (b : List Nat) (i : Nat) : List Nat := (b.drop i).take 8

/-- Raw bytes of an IEEE single field (struct format f), kept uninterpreted. -/
def f32at (b : List Nat) (i : Nat) : List Nat := (b.drop i).take 4

/-- Little-endian two-byte encoding of a u16 value (inverse of u16at for
values below 65536); used to build test payloads in theorem statements. -/
def u16bytes (x : Nat) : List Nat := [x % 256, x / 256]

/-! ## CAN frame decoder (openvbi/adaptors/ydvr.py) -/

/-- Embedded from ydvr.py TranslateCANId (lines 34-47): split a 29-bit CAN
identifier into (priority, pgn, source, destination). -/
def TranslateCANId (id : Nat) : Nat × Nat × Nat × Nat :=
  let pf := (id >>> 16) &&& 0xFF
  let ps := (id >>> 8) &&& 0xFF
  let dp := (id >>> 24) &&& 1
  let source := (id >>> 0) &&& 0xFF
  let priority := (id >>> 26) &&& 0x7
  if pf < 240 then
    (priority, (dp <<< 16) + (pf <<< 8), source, ps)
  else
    (priority, (dp <<< 16) + (pf <<< 8) + ps, source, 0xFF)

/-- Embedded from ydvr.py load_data (lines 109-130): the elapsed-time
unwrapping loop.  The decoder-owned state is the accumulated offset and the
last raw elapsed mark; maxelapsed is 65535 exactly as in the source, and the
offset grows by maxelapsed whenever a raw elapsed value drops below the
previous one. -/
def unwrapGo (offset last : Nat) : List Nat → List Nat
  | [] => []
  | e :: rest =>
    let offset' := if e < last then offset + 65535 else offset
    (e + offset') :: unwrapGo offset' e rest

/-- Unwrapped elapsed sequence produced by the ydvr.py load_data loop for a
given sequence of raw u16 elapsed readings (initial offset 0, initial last
mark 0). -/
def unwrapElapsed (es : List Nat) : List Nat := unwrapGo 0 0 es

/-- Modelled from the spec: the unwrapping the specification describes, with
the wrap offset growing by exactly 65536 (the u16 modulus) at each wrap.
This is the intended behaviour against which the code is compared. -/
def unwrapElapsedSpec (es : List Nat) : List Nat :=
  (es.foldl
    (fun (st : Nat × Nat × List Nat) e =>
      let offset' := if e < st.2.1 then st.1 + 65536 else st.1
      (offset', e, st.2.2 ++ [e + offset']))
    (0, 0, [])).2.2

/-! ## Interpolation table (openvbi/core/interpolation.py) -/

/-- Errors raised by the InterpTable API. -/
inductive InterpError
  | noSuchVariable
  | notEnoughValues
deriving DecidableEq, Repr

/-- Python dict membership test on an insertion-ordered association list. -/
def dictContains (d : List (String × List Rat)) (k : String) : Bool :=
  d.any (fun p => p.1 = k)

/-- Python dict lookup (first entry with the key; keys are unique in any
dict built by the InterpTable code). -/
def dictGet (d : List (String × List Rat)) (k : String) : Option (List Rat) :=
  (d.find? (fun p => p.1 = k)).map (·.2)

/-- Python dict assignment d[k] = v, replacing an existing entry in place or
appending a new entry in insertion order. -/
def dictSet : List (String × List Rat) → String → List Rat → List (String × List Rat)
  | [], k, v => [(k, v)]
  | p :: rest, k, v => if p.1 = k then (k, v) :: rest else p :: dictSet rest k v

/-- Python d[k].append(x) on the association list: the entry with the key
has x appended to its list; a table built by the constructor always contains
the key when this is reached, so the missing-key case is never exercised. -/
def dictAppend (x : Rat) : List (String × List Rat) → String → List (String × List Rat)
  | [], _ => []
  | p :: rest, k => if p.1 = k then (p.1, p.2 ++ [x]) :: rest else p :: dictAppend x rest k

/-- Embedded from interpolation.py InterpTable: the single field self.vars,
a dict from variable name to the list of recorded values. -/
structure InterpTable where
  vars : List (String × List Rat)
deriving DecidableEq, Repr

namespace InterpTable

/-- Embedded from InterpTable.__init__ (lines 62-67): register the implicit
independent variable, then each named dependent variable. -/
def init (names : List String) : InterpTable :=
  ⟨names.foldl (fun d v => dictSet d v []) (dictSet [] "ind" [])⟩

/-- Embedded from InterpTable.add_point (lines 81-85).  The result pairs the
object state with the exception raised, if any; the source checks membership
before touching any list, so on error the state is returned unchanged. -/
def add_point (t : InterpTable) (ind : Rat) (var : String) (value : Rat) :
    InterpTable × Option InterpError :=
  if dictContains t.vars var = false then (t, some .noSuchVariable)
  else (⟨dictAppend value (dictAppend ind t.vars "ind") var⟩, none)

/-- Embedded from InterpTable.add_points (lines 98-106): validate every
name, then the name/value count, then append the independent value and each
dependent value in order. -/
def add_points (t : InterpTable) (ind : Rat) (vars : List String) (values : List Rat) :
    InterpTable × Option InterpError :=
  if vars.any (fun v => !dictContains t.vars v) then (t, some .noSuchVariable)
  else if vars.length ≠ values.length then (t, some .notEnoughValues)
  else
    (⟨(vars.zip values).foldl (fun d p => dictAppend p.2 d p.1) (dictAppend ind t.vars "ind")⟩,
      none)

/-- Embedded from InterpTable.n_points (lines 132-133). -/
def n_points (t : InterpTable) : Nat :=
  (((dictGet t.vars "ind").map List.length).getD 0)

/-- Embedded from InterpTable.var (lines 142-145): checked access to the
recorded values of a named variable. -/
def varValues (t : InterpTable) (name : String) : Except InterpError (List Rat) :=
  if dictContains t.vars name = false then .error .noSuchVariable
  else .ok ((dictGet t.vars name).getD [])

/-- Embedded from InterpTable.ind (lines 153-154). -/
def indValues (t : InterpTable) : List Rat := (dictGet t.vars "ind").getD []

end InterpTable

/-- Piecewise-linear interpolation through a list of nodes, clamping to the
first and last recorded values, matching numpy.interp on an increasing node
sequence (the only situation in which numpy.interp is defined). -/
def interpNodes (x : Rat) (p0 : Rat × Rat) : List (Rat × Rat) → Rat
  | [] => p0.2
  | p1 :: rest =>
    if x ≤ p0.1 then p0.2
    else if x ≤ p1.1 then p0.2 + (p1.2 - p0.2) * (x - p0.1) / (p1.1 - p0.1)
    else interpNodes x p1 rest

/-- numpy.interp(x, xp, fp) for a scalar query on an increasing xp. -/
def npInterp (x : Rat) (xp fp : List Rat) : Rat :=
  match xp.zip fp with
  | [] => 0
  | p :: rest => interpNodes x p rest

/-- Embedded from InterpTable.interpolate (lines 116-123): validate every
requested name, then interpolate each one at every query point using the
full independent-variable sequence as nodes.  The object state is returned
alongside the result: the source method only reads self.vars. -/
def InterpTable.interpolate (t : InterpTable) (yvars : List String) (xs : List Rat) :
    InterpTable × Except InterpError (List (List Rat)) :=
  if yvars.any (fun v => !dictContains t.vars v) then (t, .error .noSuchVariable)
  else
    (t, .ok (yvars.map (fun y =>
        xs.map (fun x => npInterp x (t.indValues) ((dictGet t.vars y).getD [])))))

/-! ## Packet statistics (openvbi/core/statistics.py) -/

/-- Embedded from statistics.py PktFaults (lines 41-53). -/
inductive PktFaults
  | ParseFault
  | ShortMessage
  | DecodeFault
  | AttributeFault
  | TypeFault
  | ChecksumFault
deriving DecidableEq, Repr

/-- Embedded from statistics.py StatCounters (lines 65-73). -/
structure StatCounters where
  observed : Nat
  parse_fault : Nat
  short_msg : Nat
  decode_fault : Nat
  attrib_fault : Nat
  type_fault : Nat
  chksum_fault : Nat
deriving DecidableEq, Repr

/-- Zeroed counters, as produced by the StatCounters dataclass defaults. -/
def StatCounters.zero : StatCounters := ⟨0, 0, 0, 0, 0, 0, 0⟩

/-- StatCounters.FaultCount (lines 110-111). -/
def StatCounters.FaultCount (c : StatCounters) : Nat :=
  c.parse_fault + c.short_msg + c.decode_fault + c.attrib_fault + c.type_fault + c.chksum_fault

/-- Apply a fault kind to the matching counter, as StatCounters' individual
increment methods do (lines 80-101). -/
def StatCounters.applyFault (c : StatCounters) : PktFaults → StatCounters
  | .ParseFault => { c with parse_fault := c.parse_fault + 1 }
  | .ShortMessage => { c with short_msg := c.short_msg + 1 }
  | .DecodeFault => { c with decode_fault := c.decode_fault + 1 }
  | .AttributeFault => { c with attrib_fault := c.attrib_fault + 1 }
  | .TypeFault => { c with type_fault := c.type_fault + 1 }
  | .ChecksumFault => { c with chksum_fault := c.chksum_fault + 1 }

/-- Lookup in the packets dict of PktStats. -/
def statGet (d : List (String × StatCounters)) (k : String) : Option StatCounters :=
  (d.find? (fun p => p.1 = k)).map (·.2)

/-- Update the first entry with the given key in place. -/
def statUpdate (f : StatCounters → StatCounters) :
    List (String × StatCounters) → String → List (String × StatCounters)
  | [], _ => []
  | p :: rest, k => if p.1 = k then (p.1, f p.2) :: rest else p :: statUpdate f rest k

/-- Embedded from statistics.py PktStats (lines 130-220): the fault-report
limit and the insertion-ordered dict of per-name counters. -/
structure PktStats where
  fault_limit : Nat
  packets : List (String × StatCounters)
deriving DecidableEq, Repr

namespace PktStats

/-- PktStats.__init__ (lines 137-139). -/
def mk0 (fault_limit : Nat) : PktStats := ⟨fault_limit, []⟩

/-- PktStats.EnsureName (lines 149-151). -/
def EnsureName (s : PktStats) (name : String) : PktStats :=
  if (s.packets.any (fun p => p.1 = name)) then s
  else ⟨s.fault_limit, s.packets ++ [(name, StatCounters.zero)]⟩

/-- PktStats.Observed (lines 160-162). -/
def Observed (s : PktStats) (name : String) : PktStats :=
  let s' := s.EnsureName name
  ⟨s'.fault_limit, statUpdate (fun c => { c with observed := c.observed + 1 }) s'.packets name⟩

/-- PktStats.Fault (lines 171-186). -/
def Fault (s : PktStats) (name : String) (fault : PktFaults) : PktStats :=
  let s' := s.EnsureName name
  ⟨s'.fault_limit, statUpdate (fun c => c.applyFault fault) s'.packets name⟩

/-- PktStats.Seen (lines 196-197): membership in the dict, which holds iff
the name was registered by Observed or by Fault. -/
def Seen (s : PktStats) (name : String) : Bool :=
  s.packets.any (fun p => p.1 = name)

/-- PktStats.TotalCount (lines 204-208). -/
def TotalCount (s : PktStats) : Nat :=
  s.packets.foldl (fun acc p => acc + p.2.observed) 0

/-- Observed count recorded against a name (zero when unregistered); used to
state the specification-level selector. -/
def observedCount (s : PktStats) (name : String) : Nat :=
  ((statGet s.packets name).map (·.observed)).getD 0

end PktStats

/-! ## Time source selection (openvbi/core/timebase.py, openvbi/core/types.py) -/

/-- Embedded from types.py TimeSource (lines 36-44). -/
inductive TimeSource
  | Time_SysTime
  | Time_GNSS
  | Time_ZDA
  | Time_RMC
deriving DecidableEq, Repr

/-- Error raised by determine_time_source when no source is usable. -/
inductive TimebaseError
  | noTimeSource
deriving DecidableEq, Repr

/-- The statistics name each time source corresponds to in the selector. -/
def TimeSource.sourceName : TimeSource → String
  | .Time_SysTime => "SystemTime"
  | .Time_GNSS => "GNSS"
  | .Time_ZDA => "ZDA"
  | .Time_RMC => "RMC"

/-- Preference rank of a time source: lower is preferred. -/
def TimeSource.rank : TimeSource → Nat
  | .Time_SysTime => 0
  | .Time_GNSS => 1
  | .Time_ZDA => 2
  | .Time_RMC => 3

/-- Embedded from timebase.py determine_time_source (lines 41-65). -/
def determine_time_source (stats : PktStats) : Except TimebaseError TimeSource :=
  if stats.Seen "SystemTime" then .ok .Time_SysTime
  else if stats.Seen "GNSS" then .ok .Time_GNSS
  else if stats.Seen "ZDA" then .ok .Time_ZDA
  else if stats.Seen "RMC" then .ok .Time_RMC
  else .error .noTimeSource

/-- Modelled from the claim wording for the selector: the highest-preference
member of the four time sources whose name has been Observed (its observed
counter is positive) in the statistics, if any.  Used only to compare the
claim with the code, which instead tests Seen (registered by Observed or by
Fault). -/
def claimObservedSelector (stats : PktStats) : Option TimeSource :=
  if 0 < stats.observedCount "SystemTime" then some .Time_SysTime
  else if 0 < stats.observedCount "GNSS" then some .Time_GNSS
  else if 0 < stats.observedCount "ZDA" then some .Time_ZDA
  else if 0 < stats.observedCount "RMC" then some .Time_RMC
  else none

/-! ## Raw observation accessors (openvbi/core/observations.py) -/

/-- Exceptions visible at the observation accessor interface. -/
inductive PyExc
  | badData
  | valueError
deriving DecidableEq, Repr

/-- Embedded from unit_conversion.py to_temperature_kelvin (lines 2-11). -/
def to_temperature_kelvin (t : Rat) (unit : String) : Except PyExc Rat :=
  if unit = "K" ∨ unit = "k" then .ok t
  else if unit = "C" ∨ unit = "c" then .ok (t + 27315 / 100)
  else if unit = "F" ∨ unit = "f" then .ok ((t - 32) * 5 / 9 + 27315 / 100)
  else .error .valueError

/-- Python int() truncation toward zero on a rational. -/
def pyInt (x : Rat) : Int := if 0 ≤ x then ⌊x⌋ else -⌊-x⌋

/-- Python float modulo with positive divisor (result in [0, m)). -/
def pyMod (x m : Rat) : Rat := x - m * ⌊x / m⌋

/-- State of a RawN2000Obs after construction: the base-class fields set by
RawObs.__init__ (types.py lines 50-66) plus the decoded NMEA2000 field
mapping.  The external marulc parser yields numeric fields for the message
types the accessors touch; the mapping is modelled as a total numeric map. -/
structure RawN2000Obs where
  elapsed : Rat
  name : String
  hasTime : Bool
  fields : String → Rat

/-- Embedded from RawN2000Obs.__init__ (observations.py lines 890-931),
successful path: classify the PGN into a semantic name and a has-time flag.
The external PGN description database (marulc get_description_for_pgn) is
passed in as a function returning none where the lookup raises ValueError. -/
def mkRawN2000Obs (elapsed : Rat) (pgn : Nat) (fields : String → Rat)
    (descr : Nat → Option String) : RawN2000Obs :=
  let nm :=
    if pgn = 126992 then "SystemTime"
    else if pgn = 127257 then "Attitude"
    else if pgn = 128267 then "Depth"
    else if pgn = 129026 then "COG"
    else if pgn = 129029 then "GNSS"
    else if pgn = 130577 then "DirectionData"
    else if pgn = 130316 ∧ fields "source" = 0 then "WaterTemperature"
    else (descr pgn).getD "Unrecognized"
  ⟨elapsed, nm, decide (pgn = 126992), fields⟩

namespace RawN2000Obs

/-- Embedded from RawN2000Obs.Timestamp (observations.py lines 942-952). -/
def Timestamp (o : RawN2000Obs) : Except PyExc Rat :=
  if o.hasTime = false then .ok (-1)
  else if o.name = "SystemTime" then .ok (o.fields "date" * 86400 + o.fields "time")
  else if o.name = "GNSS" then .ok (o.fields "msg_date" * 86400 + o.fields "msg_time")
  else .ok (-1)

/-- Embedded from RawN2000Obs.Depth (observations.py lines 954-957). -/
def Depth (o : RawN2000Obs) : Except PyExc Rat :=
  if o.name ≠ "Depth" then .error .badData
  else .ok (o.fields "depth")

/-- Embedded from RawN2000Obs.Position (observations.py lines 959-966). -/
def Position (o : RawN2000Obs) : Except PyExc (Rat × Rat) :=
  if o.name = "GNSS" ∨ o.name = "Position, Rapid Update" then
    .ok (o.fields "longitude", o.fields "latitude")
  else .error .badData

/-- Embedded from RawN2000Obs.WaterTemperature (observations.py lines
968-972): the raw field passed through to_temperature_kelvin with unit K. -/
def WaterTemperature (o : RawN2000Obs) : Except PyExc Rat :=
  if o.name ≠ "WaterTemperature" then .error .badData
  else to_temperature_kelvin (o.fields "temperature") "K"

end RawN2000Obs

/-- Outcome of RawN0183Obs.Timestamp: either the sentinel value returned
without consulting any field, or a real-world instant reconstructed by the
external datetime library from the listed sub-fields (kept symbolic, since
calendar arithmetic lives outside this repository). -/
inductive N0183Ts
  | sentinel (v : Rat)
  | zda (year month day seconds : Rat)
  | rmc (datestamp timestamp : Rat)
deriving DecidableEq, Repr

/-- State of a RawN0183Obs after construction: base-class fields plus the
decoded sentence fields.  Numeric fields and string-valued fields (unit
letters, hemisphere letters) are carried in separate total maps. -/
structure RawN0183Obs where
  elapsed : Rat
  name : String
  hasTime : Bool
  fields : String → Rat
  sfields : String → String

/-- Embedded from RawN0183Obs.__init__ (observations.py lines 291-303),
successful path: the semantic name is the sentence formatter code and the
has-time flag is set exactly for ZDA and RMC. -/
def mkRawN0183Obs (elapsed : Rat) (formatter : String) (fields : String → Rat)
    (sfields : String → String) : RawN0183Obs :=
  ⟨elapsed, formatter, decide (formatter = "ZDA" ∨ formatter = "RMC"), fields, sfields⟩

namespace RawN0183Obs

/-- Embedded from RawN0183Obs.Timestamp (observations.py lines 314-329). -/
def Timestamp (o : RawN0183Obs) : Except PyExc N0183Ts :=
  if o.hasTime = false then .ok (.sentinel (-1))
  else if o.name = "ZDA" then
    .ok (.zda (o.fields "year") (o.fields "month") (o.fields "day") (o.fields "timestamp"))
  else if o.name = "RMC" then
    .ok (.rmc (o.fields "datestamp") (o.fields "timestamp"))
  else .error .valueError

/-- Embedded from RawN0183Obs.Depth (observations.py lines 331-334). -/
def Depth (o : RawN0183Obs) : Except PyExc Rat :=
  if o.name ≠ "DPT" ∧ o.name ≠ "DBT" then .error .badData
  else .ok (o.fields "depth_meters")

/-- Embedded from RawN0183Obs.Position (observations.py lines 336-349); the
isinstance-float guard always passes in this numeric field model. -/
def Position (o : RawN0183Obs) : Except PyExc (Rat × Rat) :=
  if o.name ≠ "GGA" then .error .badData
  else
    let rawLon := o.fields "lon"
    let rawLat := o.fields "lat"
    let lon0 := (pyInt (rawLon / 100) : Rat) + pyMod rawLon 100 / 60
    let lon := if o.sfields "lon_dir" = "W" then -lon0 else lon0
    let lat0 := (pyInt (rawLat / 100) : Rat) + pyMod rawLat 100 / 60
    let lat := if o.sfields "lat_dir" = "S" then -lat0 else lat0
    .ok (lon, lat)

/-- Embedded from RawN0183Obs.WaterTemperature (observations.py lines
351-356). -/
def WaterTemperature (o : RawN0183Obs) : Except PyExc Rat :=
  if o.name ≠ "MTW" then .error .badData
  else to_temperature_kelvin (o.fields "temperature") (o.sfields "units")

end RawN0183Obs

/-! ## Binary logger packet codec, byte level (openvbi/adaptors/logger_file.py)

Each buffer constructor is embedded as a function from the payload byte list
to an optional packet value; the result is none exactly when the source's
struct.unpack / struct.unpack_from calls raise struct.error on that buffer.
IEEE double and single fields are kept as their raw byte groups; the textual
and JSON fields of the string-bearing packets are kept as raw byte lists
(the UTF-8 and JSON interpretation applied by the source after the layout
checks succeed is external to the framing behaviour studied here). -/

/-- Embedded from logger_file.py numeric_file_version (lines 52-53). -/
def numeric_file_version (major minor : Nat) : Nat := major * 1000 + minor

/-- Embedded from logger_file.py: wibl_file_version_major (line 45). -/
def wibl_file_version_major : Nat := 1

/-- Embedded from logger_file.py: wibl_file_version_minor (line 47). -/
def wibl_file_version_minor : Nat := 3

/-- Decoded packet values of the WIBL binary logger file, one constructor
per packet type of logger_file.py (PacketTypes, lines 59-97), carrying the
fields each buffer constructor stores. -/
inductive Packet
  | serialiserVersion (major minor : Nat) (nmea2000 nmea0183 imu : Nat × Nat × Nat)
  | systemTime (date : Nat) (timestamp : List Nat) (elapsed : Nat) (data_source : Nat)
  | attitude (date : Nat) (timestamp : List Nat) (elapsed : Nat) (yaw pitch roll : List Nat)
  | depth (date : Nat) (timestamp : List Nat) (elapsed : Nat) (depth offset range : List Nat)
  | cog (date : Nat) (timestamp : List Nat) (elapsed : Nat) (courseOverGround speedOverGround : List Nat)
  | gnss (date : Nat) (timestamp : List Nat) (elapsed : Nat) (msg_date : Nat)
      (msg_timestamp latitude longitude altitude : List Nat)
      (receiverType receiverMethod numSVs : Nat)
      (horizontalDOP positionDOP separation : List Nat)
      (numRefStations refStationType refStationID : Nat) (correctionAge : List Nat)
  | environment (date : Nat) (timestamp : List Nat) (elapsed : Nat) (tempSource : Nat)
      (temperature : List Nat) (humiditySource : Nat) (humidity pressure : List Nat)
  | temperature (date : Nat) (timestamp : List Nat) (elapsed : Nat) (tempSource : Nat)
      (temperature : List Nat)
  | humidity (date : Nat) (timestamp : List Nat) (elapsed : Nat) (humiditySource : Nat)
      (humidity : List Nat)
  | pressure (date : Nat) (timestamp : List Nat) (elapsed : Nat) (pressureSource : Nat)
      (pressure : List Nat)
  | serialString (elapsed : Nat) (data : List Nat)
  | motion (elapsed : Nat) (accel gyro : List Nat × List Nat × List Nat) (temp : List Nat)
  | metadata (logger_name ship_name : List Nat)
  | algorithmRequest (algorithm parameters : List Nat)
  | jsonMetadata (metadata_element : List Nat)
  | nmea0183Filter (recog_string : List Nat)
  | sensorScales (config : List Nat)
  | rawIMU (elapsed : Nat) (accel gyro : Int × Int × Int) (temp : Int)
  | setup (setup : List Nat)
deriving DecidableEq, Repr

/-- SerialiserVersion.buffer_constructor (lines 1079-1111): read major and
minor, then branch on the version-compare rule; a pre-1.3 file carries six
sub-version u16 values and the IMU sub-version is synthesized as zeros, and
a 1.3-or-later file carries all nine. -/
def decodeSerialiserVersion (b : List Nat) : Option Packet :=
  if b.length < 4 then none
  else
    let major := u16at b 0
    let minor := u16at b 2
    if numeric_file_version major minor <
        numeric_file_version wibl_file_version_major wibl_file_version_minor then
      if b.length < 16 then none
      else some (.serialiserVersion major minor
        (u16at b 4, u16at b 6, u16at b 8) (u16at b 10, u16at b 12, u16at b 14) (0, 0, 0))
    else
      if b.length < 22 then none
      else some (.serialiserVersion major minor
        (u16at b 4, u16at b 6, u16at b 8) (u16at b 10, u16at b 12, u16at b 14)
        (u16at b 16, u16at b 18, u16at b 20))

/-- SystemTime.buffer_constructor (lines 225-229): struct format HdIB, 15
bytes exactly. -/
def decodeSystemTime (b : List Nat) : Option Packet :=
  if b.length = 15 then
    some (.systemTime (u16at b 0) (f64at b 2) (u32at b 10) (byteAt b 14))
  else none

/-- Attitude.buffer_constructor (lines 297-305): struct format HdIddd, 38
bytes exactly. -/
def decodeAttitude (b : List Nat) : Option Packet :=
  if b.length = 38 then
    some (.attitude (u16at b 0) (f64at b 2) (u32at b 10) (f64at b 14) (f64at b 22) (f64at b 30))
  else none

/-- Depth.buffer_constructor (lines 377-387): struct format HdIddd, 38
bytes exactly. -/
def decodeDepth (b : List Nat) : Option Packet :=
  if b.length = 38 then
    some (.depth (u16at b 0) (f64at b 2) (u32at b 10) (f64at b 14) (f64at b 22) (f64at b 30))
  else none

/-- COG.buffer_constructor (lines 459-465): struct format HdIdd, 30 bytes
exactly. -/
def decodeCOG (b : List Nat) : Option Packet :=
  if b.length = 30 then
    some (.cog (u16at b 0) (f64at b 2) (u32at b 10) (f64at b 14) (f64at b 22))
  else none

/-- GNSS.buffer_constructor (lines 540-574): struct format HdIHddddBBBdddBBHd,
87 bytes exactly. -/
def decodeGNSS (b : List Nat) : Option Packet :=
  if b.length = 87 then
    some (.gnss (u16at b 0) (f64at b 2) (u32at b 10) (u16at b 14) (f64at b 16)
      (f64at b 24) (f64at b 32) (f64at b 40) (byteAt b 48) (byteAt b 49) (byteAt b 50)
      (f64at b 51) (f64at b 59) (f64at b 67) (byteAt b 75) (byteAt b 76) (u16at b 77)
      (f64at b 79))
  else none

/-- Environment.buffer_constructor (lines 690-705): struct format HdIBdBdd,
40 bytes exactly. -/
def decodeEnvironment (b : List Nat) : Option Packet :=
  if b.length = 40 then
    some (.environment (u16at b 0) (f64at b 2) (u32at b 10) (byteAt b 14) (f64at b 15)
      (byteAt b 23) (f64at b 24) (f64at b 32))
  else none

/-- Temperature.buffer_constructor (lines 784-790): struct format HdIBd, 23
bytes exactly. -/
def decodeTemperature (b : List Nat) : Option Packet :=
  if b.length = 23 then
    some (.temperature (u16at b 0) (f64at b 2) (u32at b 10) (byteAt b 14) (f64at b 15))
  else none

/-- Humidity.buffer_constructor (lines 863-869): struct format HdIBd, 23
bytes exactly. -/
def decodeHumidity (b : List Nat) : Option Packet :=
  if b.length = 23 then
    some (.humidity (u16at b 0) (f64at b 2) (u32at b 10) (byteAt b 14) (f64at b 15))
  else none

/-- Pressure.buffer_constructor (lines 942-948): struct format HdIBd, 23
bytes exactly. -/
def decodePressure (b : List Nat) : Option Packet :=
  if b.length = 23 then
    some (.pressure (u16at b 0) (f64at b 2) (u32at b 10) (byteAt b 14) (f64at b 15))
  else none

/-- SerialString.buffer_constructor (lines 1012-1017): a u32 elapsed time
followed by the remaining bytes as the sentence text; any buffer of at
least 4 bytes matches (the format is built from len(buffer) - 4, and a
negative string length makes struct.unpack raise). -/
def decodeSerialString (b : List Nat) : Option Packet :=
  if 4 ≤ b.length then some (.serialString (u32at b 0) (b.drop 4))
  else none

/-- Motion.buffer_constructor (lines 1188-1196): struct format Ifffffff, 32
bytes exactly. -/
def decodeMotion (b : List Nat) : Option Packet :=
  if b.length = 32 then
    some (.motion (u32at b 0) (f32at b 4, f32at b 8, f32at b 12)
      (f32at b 16, f32at b 20, f32at b 24) (f32at b 28))
  else none

/-- Metadata.buffer_constructor (lines 1261-1272): two length-prefixed
strings; each unpack_from needs the buffer to reach offset plus size. -/
def decodeMetadata (b : List Nat) : Option Packet :=
  if b.length < 4 then none
  else
    let idLen := u32at b 0
    if b.length < 4 + idLen then none
    else if b.length < 8 + idLen then none
    else
      let nameLen := u32at b (4 + idLen)
      if b.length < 8 + idLen + nameLen then none
      else some (.metadata ((b.drop 4).take idLen) ((b.drop (8 + idLen)).take nameLen))

/-- AlgorithmRequest.buffer_constructor (lines 1335-1346): two
length-prefixed strings with the same framing as Metadata. -/
def decodeAlgorithmRequest (b : List Nat) : Option Packet :=
  if b.length < 4 then none
  else
    let algLen := u32at b 0
    if b.length < 4 + algLen then none
    else if b.length < 8 + algLen then none
    else
      let paramLen := u32at b (4 + algLen)
      if b.length < 8 + algLen + paramLen then none
      else some (.algorithmRequest ((b.drop 4).take algLen) ((b.drop (8 + algLen)).take paramLen))

/-- JSONMetadata.buffer_constructor (lines 1404-1410): one length-prefixed
string. -/
def decodeJSONMetadata (b : List Nat) : Option Packet :=
  if b.length < 4 then none
  else
    let metaLen := u32at b 0
    if b.length < 4 + metaLen then none
    else some (.jsonMetadata ((b.drop 4).take metaLen))

/-- NMEA0183Filter.buffer_constructor (lines 1479-1485): one
length-prefixed string. -/
def decodeNMEA0183Filter (b : List Nat) : Option Packet :=
  if b.length < 4 then none
  else
    let idLen := u32at b 0
    if b.length < 4 + idLen then none
    else some (.nmea0183Filter ((b.drop 4).take idLen))

/-- SensorScales.buffer_constructor (lines 1575-1582): one length-prefixed
string (parsed as JSON by the source after the layout checks succeed). -/
def decodeSensorScales (b : List Nat) : Option Packet :=
  if b.length < 4 then none
  else
    let configLen := u32at b 0
    if b.length < 4 + configLen then none
    else some (.sensorScales ((b.drop 4).take configLen))

/-- RawIMU.buffer_constructor (lines 1674-1679): struct format Ihhhhhhh, 18
bytes exactly; the field order in the source is elapsed, temperature, the
three gyro rates, then the three accelerations. -/
def decodeRawIMU (b : List Nat) : Option Packet :=
  if b.length = 18 then
    some (.rawIMU (u32at b 0) (i16at b 12, i16at b 14, i16at b 16)
      (i16at b 6, i16at b 8, i16at b 10) (i16at b 4))
  else none

/-- Setup.buffer_constructor (lines 1769-1776): one length-prefixed string
(parsed as JSON by the source after the layout checks succeed). -/
def decodeSetup (b : List Nat) : Option Packet :=
  if b.length < 4 then none
  else
    let setupLen := u32at b 0
    if b.length < 4 + setupLen then none
    else some (.setup ((b.drop 4).take setupLen))

/-- Dispatch a recognized packet type id to its buffer constructor,
mirroring the if-chain of PacketFactory.next_packet (lines 1883-1920);
returns none for an unrecognized id. -/
def decodeDispatch (pktId : Nat) (b : List Nat) : Option (Option Packet) :=
  if pktId = 0 then some (decodeSerialiserVersion b)
  else if pktId = 1 then some (decodeSystemTime b)
  else if pktId = 2 then some (decodeAttitude b)
  else if pktId = 3 then some (decodeDepth b)
  else if pktId = 4 then some (decodeCOG b)
  else if pktId = 5 then some (decodeGNSS b)
  else if pktId = 6 then some (decodeEnvironment b)
  else if pktId = 7 then some (decodeTemperature b)
  else if pktId = 8 then some (decodeHumidity b)
  else if pktId = 9 then some (decodePressure b)
  else if pktId = 10 then some (decodeSerialString b)
  else if pktId = 11 then some (decodeMotion b)
  else if pktId = 12 then some (decodeMetadata b)
  else if pktId = 13 then some (decodeAlgorithmRequest b)
  else if pktId = 14 then some (decodeJSONMetadata b)
  else if pktId = 15 then some (decodeNMEA0183Filter b)
  else if pktId = 16 then some (decodeSensorScales b)
  else if pktId = 17 then some (decodeRawIMU b)
  else if pktId = 18 then some (decodeSetup b)
  else none

/-- Observable outcome of one PacketFactory.next_packet call: the returned
value together with the end-of-file flag effect.  endOfStream is the None
return with the flag set (header shorter than 8 bytes); unknownSkipped is
the None return for an unrecognized type id with the flag clear;
transcriptionError is the PacketTranscriptionError raised when a recognized
buffer constructor's struct call fails. -/
inductive NextOutcome
  | endOfStream
  | packet (p : Packet)
  | unknownSkipped (pktId : Nat)
  | transcriptionError
deriving DecidableEq, Repr

/-- Embedded from PacketFactory.next_packet (lines 1870-1927), acting on the
remaining byte stream at a frame boundary: read the 8-byte header (signal
end-of-stream when fewer than 8 bytes remain), read up to payload_len bytes
(a file read returns what is available), and dispatch on the type id. -/
def next_packet (stream : List Nat) : NextOutcome :=
  if stream.length < 8 then .endOfStream
  else
    let pktId := u32at stream 0
    let pktLen := u32at stream 4
    let payload := (stream.drop 8).take pktLen
    match decodeDispatch pktId payload with
    | none => .unknownSkipped pktId
    | some none => .transcriptionError
    | some (some p) => .packet p

/-- Layout-mismatch condition for each recognized packet type: the exact
condition under which that type's buffer constructor raises struct.error on
a payload, stated independently of the decoder functions (fixed formats
demand an exact size; length-prefixed fields must not extend past the
buffer; the pre/post-1.3 SerialiserVersion layouts demand 16 or 22 bytes of
prefix). -/
def layoutMismatch (pktId : Nat) (b : List Nat) : Prop :=
  if pktId = 0 then
    b.length < 4 ∨
      (u16at b 0 * 1000 + u16at b 2 < 1003 ∧ b.length < 16) ∨
      (1003 ≤ u16at b 0 * 1000 + u16at b 2 ∧ b.length < 22)
  else if pktId = 1 then b.length ≠ 15
  else if pktId = 2 then b.length ≠ 38
  else if pktId = 3 then b.length ≠ 38
  else if pktId = 4 then b.length ≠ 30
  else if pktId = 5 then b.length ≠ 87
  else if pktId = 6 then b.length ≠ 40
  else if pktId = 7 then b.length ≠ 23
  else if pktId = 8 then b.length ≠ 23
  else if pktId = 9 then b.length ≠ 23
  else if pktId = 10 then b.length < 4
  else if pktId = 11 then b.length ≠ 32
  else if pktId = 12 then
    b.length < 8 + u32at b 0 ∨ b.length < 8 + u32at b 0 + u32at b (4 + u32at b 0)
  else if pktId = 13 then
    b.length < 8 + u32at b 0 ∨ b.length < 8 + u32at b 0 + u32at b (4 + u32at b 0)
  else if pktId = 14 then b.length < 4 + u32at b 0
  else if pktId = 15 then b.length < 4 + u32at b 0
  else if pktId = 16 then b.length < 4 + u32at b 0
  else if pktId = 17 then b.length ≠ 18
  else if pktId = 18 then b.length < 4 + u32at b 0
  else False

instance (pktId : Nat) (b : List Nat) : Decidable (layoutMismatch pktId b) := by
  unfold layoutMismatch
  infer_instance

/-! ## Binary logger packet codec, field level (for the round-trip claim)

The round-trip property compares field values, so here struct.pack and
struct.unpack are modelled at the level of typed scalar fields (the external
struct library is a bijection between well-formed field sequences and byte
strings).  Doubles are exact rationals; struct.pack coerces a Python int
packed into a double slot to its float value, which is the integer itself. -/

/-- One scalar field of a struct format string. -/
inductive Field
  | u8 (v : Nat)
  | u16 (v : Nat)
  | u32 (v : Nat)
  | i16 (v : Int)
  | f64 (v : Rat)
deriving DecidableEq, Repr

/-- Field values of a Temperature packet (type 7) as stored by its
constructors: reception date and timestamp, elapsed time, temperature
source, and temperature in Kelvin. -/
structure TemperaturePkt where
  date : Nat
  timestamp : Rat
  elapsed : Nat
  tempSource : Nat
  temperature : Rat
deriving DecidableEq, Repr

/-- Embedded from Temperature.payload (logger_file.py lines 792-794): the
source packs format HdIBd with arguments (date, timestamp, elapsed,
tempSource, tempSource) — the temperature slot is filled with the
temperature source (coerced to float), not with the temperature. -/
def Temperature_payload (p : TemperaturePkt) : List Field :=
  [.u16 p.date, .f64 p.timestamp, .u32 p.elapsed, .u8 p.tempSource, .f64 (p.tempSource : Rat)]

/-- Embedded from Temperature.buffer_constructor (lines 784-790): unpack
format HdIBd into (date, timestamp, elapsed, tempSource, temperature). -/
def Temperature_buffer_constructor : List Field → Option TemperaturePkt
  | [.u16 d, .f64 t, .u32 e, .u8 s, .f64 temp] => some ⟨d, t, e, s, temp⟩
  | _ => none

/-- Field values of a RawIMU packet (type 17) as stored by its
constructors. -/
structure RawIMUPkt where
  elapsed : Nat
  accel : Int × Int × Int
  gyro : Int × Int × Int
  temp : Int
deriving DecidableEq, Repr

/-- Python attribute lookup on a RawIMU instance: the attributes set by its
constructors (accel, gyro, temp from the packet plus date, timestamp,
elapsed from the base class).  Any other attribute name is unbound. -/
def RawIMUPkt.hasAttr (_ : RawIMUPkt) (a : String) : Bool :=
  a = "accel" ∨ a = "gyro" ∨ a = "temp" ∨ a = "date" ∨ a = "timestamp" ∨ a = "elapsed"

/-- Embedded from RawIMU.payload (logger_file.py lines 1709-1711): the
source reads self.elapsed, self.gyro[0], self.gyro[1], then self.gyrpo[2] —
an attribute name that no constructor ever binds — so every call raises
AttributeError before struct.pack runs. -/
def RawIMU_payload (p : RawIMUPkt) : Except String (List Field) :=
  if p.hasAttr "gyrpo" then
    .ok [.u32 p.elapsed, .i16 p.gyro.1, .i16 p.gyro.2.1, .i16 p.gyro.2.2,
      .i16 p.accel.1, .i16 p.accel.2.1, .i16 p.accel.2.2]
  else .error "AttributeError: gyrpo"

end OpenVBI

namespace OpenVBI

/-! ## Helper lemmas -/

/-- Bitwise or coincides with addition when the low field fits below the
shift: used to relate the claim's field-packing notation to the decoder's
arithmetic. -/
theorem shiftLeft_lor_eq_add (a : Nat) {b n : Nat} (h : b < 2 ^ n) :
    a <<< n ||| b = a <<< n + b := by
  apply Nat.eq_of_testBit_eq
  intro j
  rw [Nat.testBit_lor, Nat.testBit_shiftLeft, Nat.shiftLeft_eq, Nat.mul_comm a (2 ^ n),
    Nat.testBit_mul_pow_two_add a h]
  by_cases hj : j < n
  · have : ¬ n ≤ j := Nat.not_le_of_lt hj
    simp [hj, this]
  · have hn : n ≤ j := Nat.le_of_not_lt hj
    have hb : b.testBit j = false :=
      Nat.testBit_lt_two_pow (lt_of_lt_of_le h (Nat.pow_le_pow_right (by norm_num) hn))
    simp [hj, hn, hb]

/-! ## C1: elapsed-time unwrapping in the CAN decoder -/

/-- C1 (code_bug): the ydvr.py unwrapping adds 65535 (its maxelapsed
constant) per detected wrap rather than the 65536 modulus the specification
states, so on the specification's own example sequence the code produces
[65000, 65530, 65735, 66435] while the claimed unwrapping (modelled by
unwrapElapsedSpec) produces [65000, 65530, 65736, 66436]. -/
theorem unwrapElapsed_off_by_one :
    unwrapElapsed [65000, 65530, 200, 900] = [65000, 65530, 65735, 66435] ∧
    unwrapElapsedSpec [65000, 65530, 200, 900] = [65000, 65530, 65736, 66436] ∧
    unwrapElapsed [65000, 65530, 200, 900] ≠ unwrapElapsedSpec [65000, 65530, 200, 900] := by
  refine ⟨rfl, rfl, ?_⟩
  decide

/-! ## C8: CAN PGN reconstruction -/

/-- C8 (confirmed): for every 32-bit identifier other than the 0xFFFFFFFF
sentinel, TranslateCANId reconstructs the PGN as the claim states: with
pf, ps, dp the masked identifier fields, a PDU1 frame (pf < 240) yields
pgn = (dp <<< 16) ||| (pf <<< 8) and destination ps, and a PDU2 frame
yields pgn = (dp <<< 16) ||| (pf <<< 8) ||| ps and the broadcast
destination 255. -/
theorem TranslateCANId_pgn (id : Nat) (_h32 : id < 2 ^ 32) (_hs : id ≠ 0xFFFFFFFF) :
    (((id >>> 16) &&& 0xFF) < 240 →
      (TranslateCANId id).2.1 = (((id >>> 24) &&& 1) <<< 16) ||| (((id >>> 16) &&& 0xFF) <<< 8) ∧
      (TranslateCANId id).2.2.2 = ((id >>> 8) &&& 0xFF)) ∧
    (240 ≤ ((id >>> 16) &&& 0xFF) →
      (TranslateCANId id).2.1 =
        ((((id >>> 24) &&& 1) <<< 16) ||| (((id >>> 16) &&& 0xFF) <<< 8)) ||| ((id >>> 8) &&& 0xFF) ∧
      (TranslateCANId id).2.2.2 = 0xFF) := by
  have hpf : (id >>> 16) &&& 0xFF < 256 := Nat.lt_succ_of_le (Nat.and_le_right)
  have hps : (id >>> 8) &&& 0xFF < 256 := Nat.lt_succ_of_le (Nat.and_le_right)
  have hps8 : (id >>> 8) &&& 0xFF < 2 ^ 8 := hps
  have hlow : ((id >>> 16) &&& 0xFF) <<< 8 < 2 ^ 16 := by
    rw [Nat.shiftLeft_eq]
    calc ((id >>> 16) &&& 0xFF) * 2 ^ 8 ≤ 255 * 2 ^ 8 :=
          Nat.mul_le_mul_right _ (Nat.le_of_lt_succ hpf)
      _ < 2 ^ 16 := by norm_num
  have hlow2 : ((id >>> 16) &&& 0xFF) <<< 8 + ((id >>> 8) &&& 0xFF) < 2 ^ 16 := by
    rw [Nat.shiftLeft_eq]
    have h1 : ((id >>> 16) &&& 0xFF) * 2 ^ 8 ≤ 255 * 2 ^ 8 :=
      Nat.mul_le_mul_right _ (Nat.le_of_lt_succ hpf)
    omega
  constructor
  · intro hlt
    refine ⟨?_, ?_⟩
    · rw [shiftLeft_lor_eq_add _ hlow]
      simp only [TranslateCANId, hlt, if_pos]
    · simp only [TranslateCANId, hlt, if_pos]
  · intro hge
    have hlt : ¬ ((id >>> 16) &&& 0xFF) < 240 := Nat.not_lt_of_le hge
    refine ⟨?_, ?_⟩
    · rw [Nat.lor_assoc, shiftLeft_lor_eq_add _ hps8, shiftLeft_lor_eq_add _ hlow2,
        ← Nat.add_assoc]
      simp only [TranslateCANId, hlt, if_neg, if_false]
    · simp only [TranslateCANId, hlt, if_neg, if_false]

/-- Witness for C8 at the claim's own example field values: an identifier
with dp = 1, pf = 100, ps = 23 (PDU1) satisfies both conclusions of the
PDU1 branch. -/
theorem TranslateCANId_pgn_witness :
    (TranslateCANId 23336709).2.1 = ((1 <<< 16) ||| (100 <<< 8)) ∧
    (TranslateCANId 23336709).2.2.2 = 23 := by
  have h := (TranslateCANId_pgn 23336709 (by norm_num) (by norm_num)).1 (by decide)
  have h1 : (23336709 >>> 24) &&& 1 = 1 := by decide
  have h2 : (23336709 >>> 16) &&& 0xFF = 100 := by decide
  have h3 : (23336709 >>> 8) &&& 0xFF = 23 := by decide
  rw [h1, h2, h3] at h
  exact h

/-! ## C9: interpolation correctness on the specification's example table -/

/-- The two-node table on variable z used by the interpolation claim. -/
def zTable : InterpTable :=
  (((InterpTable.init ["z"]).add_point 0 "z" 10).1.add_point 10 "z" 20).1

/-- C9 (confirmed): on the table holding (0, 10) and (10, 20) for variable
z, interpolate returns 15 at query 5 and the clamped endpoint value 20 (not
the linear extrapolation) at query 20, and in both calls the table state is
returned unchanged. -/
theorem interpolate_clamps :
    zTable = ⟨[("ind", [0, 10]), ("z", [10, 20])]⟩ ∧
    (zTable.interpolate ["z"] [5]).2 = .ok [[15]] ∧
    (zTable.interpolate ["z"] [20]).2 = .ok [[20]] ∧
    (zTable.interpolate ["z"] [5]).1 = zTable ∧
    (zTable.interpolate ["z"] [20]).1 = zTable ∧
    (20 : Rat) ≠ 10 + (20 - 10) * (20 - 0) / (10 - 0) := by
  have hz : zTable = ⟨[("ind", [0, 10]), ("z", [10, 20])]⟩ := by decide
  refine ⟨hz, ?_, ?_, by decide, by decide, by norm_num⟩
  · rw [hz]
    simp [InterpTable.interpolate, InterpTable.indValues, dictContains, dictGet,
      npInterp, interpNodes, List.find?]
    norm_num
  · rw [hz]
    simp [InterpTable.interpolate, InterpTable.indValues, dictContains, dictGet,
      npInterp, interpNodes, List.find?]
    norm_num

/-! ## C3 and C10: interpolation table bookkeeping -/

/-- Every length query on a registered variable agrees with the length of
the independent-variable sequence (a per-entry check over the table, as
queried through its accessors). -/
def alignedB (t : InterpTable) : Bool :=
  t.vars.all (fun p => p.2.length = ((dictGet t.vars "ind").map List.length).getD 0)

/-- Appending to one key leaves every lookup unchanged except that key,
whose list gains the appended element. -/
theorem dictGet_dictAppend (x : Rat) (d : List (String × List Rat)) (k k' : String) :
    dictGet (dictAppend x d k) k' =
      if k' = k then (dictGet d k').map (· ++ [x]) else dictGet d k' := by
  induction d with
  | nil => simp [dictAppend, dictGet]
  | cons p rest ih =>
    by_cases hpk : p.1 = k
    · by_cases hk' : k' = p.1
      · simp [dictAppend, dictGet, hpk, hk', List.find?]
      · have h1 : ¬ k' = k := by rw [← hpk] at *; exact hk'
        have h2 : ¬ k = k' := fun h => h1 h.symm
        simp [dictAppend, dictGet, hpk, hk', h1, h2, List.find?]
    · by_cases hk' : k' = p.1
      · have : ¬ k' = k := by rw [hk']; exact hpk
        simp [dictAppend, dictGet, hpk, hk', this, List.find?]
      · simp only [dictAppend, hpk, if_false, ite_false]
        simp only [dictGet, List.find?] at ih ⊢
        have hd : (decide (p.1 = k')) = false := by
          simp [show ¬ p.1 = k' from fun h => hk' h.symm]
        rw [hd]
        simpa [hd] using ih

/-- Appending preserves the key sequence of the dict. -/
theorem dictAppend_keys (x : Rat) (d : List (String × List Rat)) (k : String) :
    (dictAppend x d k).map Prod.fst = d.map Prod.fst := by
  induction d with
  | nil => simp [dictAppend]
  | cons p rest ih =>
    by_cases hpk : p.1 = k
    · simp [dictAppend, hpk]
    · simp [dictAppend, hpk, ih]

/-- Folding a sequence of appends changes each lookup's length by the
number of times its key occurs among the appended keys. -/
theorem dictGet_foldAppend (L : List (String × Rat)) (d : List (String × List Rat)) (k : String) :
    ((dictGet (L.foldl (fun d p => dictAppend p.2 d p.1) d) k).map List.length) =
      ((dictGet d k).map (fun l => l.length + (L.map Prod.fst).count k)) := by
  induction L generalizing d with
  | nil => cases h : dictGet d k <;> simp [h]
  | cons p L ih =>
    rw [List.foldl_cons, ih, dictGet_dictAppend]
    by_cases hk : k = p.1
    · cases h : dictGet d k <;>
        simp [h, hk, List.count_cons] <;> omega
    · cases h : dictGet d k <;>
        simp [h, hk, List.count_cons, show ¬ p.1 = k from fun h' => hk h'.symm]

/-- Key preservation through the add_points fold. -/
theorem foldAppend_keys (L : List (String × Rat)) (d : List (String × List Rat)) :
    (L.foldl (fun d p => dictAppend p.2 d p.1) d).map Prod.fst = d.map Prod.fst := by
  induction L generalizing d with
  | nil => rfl
  | cons p L ih => rw [List.foldl_cons, ih, dictAppend_keys]

/-- In a dict with pairwise-distinct keys, every stored entry is retrieved
by lookup on its key. -/
theorem dictGet_of_mem_nodup {d : List (String × List Rat)} {p : String × List Rat}
    (hnd : (d.map Prod.fst).Nodup) (hp : p ∈ d) : dictGet d p.1 = some p.2 := by
  induction d with
  | nil => cases hp
  | cons q rest ih =>
    rcases List.mem_cons.mp hp with h | h
    · subst h
      simp [dictGet, List.find?]
    · have hq : q.1 ≠ p.1 := by
        intro hqe
        have : p.1 ∈ rest.map Prod.fst := List.mem_map_of_mem Prod.fst h
        rw [List.map_cons, List.nodup_cons] at hnd
        exact hnd.1 (hqe ▸ this)
      have hrest : (rest.map Prod.fst).Nodup := by
        rw [List.map_cons, List.nodup_cons] at hnd
        exact hnd.2
      simp only [dictGet, List.find?]
      have hd : (decide (q.1 = p.1)) = false := by simp [hq]
      rw [hd]
      exact ih hrest h

/-- A key that is present in the dict satisfies the membership test. -/
theorem dictContains_of_mem_keys {d : List (String × List Rat)} {k : String}
    (h : k ∈ d.map Prod.fst) : dictContains d k = true := by
  rcases List.mem_map.mp h with ⟨p, hp, hk⟩
  simp only [dictContains, List.any_eq_true]
  exact ⟨p, hp, by simp [hk]⟩

/-- C3 counterexample: on a table registering dependent variables a and b,
a single add_point insertion for a succeeds, after which the independent
sequence has one point but variable b still has none — the table does not
materialize a hole for b, so the claimed length invariant fails. -/
theorem add_point_leaves_hole :
    ((InterpTable.init ["a", "b"]).add_point 0 "a" 1).2 = none ∧
    (dictGet ((InterpTable.init ["a", "b"]).add_point 0 "a" 1).1.vars "ind").map List.length =
      some 1 ∧
    (dictGet ((InterpTable.init ["a", "b"]).add_point 0 "a" 1).1.vars "b").map List.length =
      some 0 ∧
    alignedB ((InterpTable.init ["a", "b"]).add_point 0 "a" 1).1 = false := by
  refine ⟨by decide, by decide, by decide, by decide⟩

/-- C3 (corrected): the aligned-lengths invariant does hold for insertions
through add_points that supply every registered dependent variable exactly
once: if the table's keys are distinct, the independent variable is
registered, the supplied names are exactly the registered dependent names
without repetition, and the call succeeds, then every variable's queried
length again equals the independent sequence's length. -/
theorem add_points_full_supply_aligned (t t' : InterpTable) (x : Rat)
    (ns : List String) (vs : List Rat)
    (hnd : (t.vars.map Prod.fst).Nodup)
    (hind : dictContains t.vars "ind" = true)
    (ha : alignedB t = true)
    (hnsnd : ns.Nodup)
    (hcov : t.vars.all (fun p => (decide (p.1 = "ind")) || ns.any (fun k => k = p.1)) = true)
    (hnoind : ns.any (fun k => k = "ind") = false)
    (hsucc : t.add_points x ns vs = (t', none)) :
    alignedB t' = true := by
  -- Unpack the successful call.
  rw [InterpTable.add_points] at hsucc
  by_cases h1 : ns.any (fun v => !dictContains t.vars v) = true
  · rw [if_pos h1] at hsucc
    cases hsucc
  · rw [if_neg h1] at hsucc
    by_cases h2 : ns.length = vs.length
    · rw [if_neg (by omega)] at hsucc
      have ht' : t'.vars =
          (ns.zip vs).foldl (fun d p => dictAppend p.2 d p.1) (dictAppend x t.vars "ind") := by
        have := congrArg Prod.fst hsucc
        simp at this
        rw [← this]
      have hzipfst : (ns.zip vs).map Prod.fst = ns := List.map_fst_zip ns vs (by omega)
      -- The independent entry exists in t.
      obtain ⟨l0, hl0⟩ : ∃ l0, dictGet t.vars "ind" = some l0 := by
        simp only [dictContains, List.any_eq_true] at hind
        obtain ⟨p, hp, hpk⟩ := hind
        have hpk' : p.1 = "ind" := by simpa using hpk
        refine ⟨p.2, ?_⟩
        rw [← hpk']
        exact dictGet_of_mem_nodup hnd hp
      have hnoind' : "ind" ∉ ns := by
        intro hmem
        have hx : (ns.any fun k => decide (k = "ind")) = true := by
          rw [List.any_eq_true]
          exact ⟨"ind", hmem, by simp⟩
        rw [hx] at hnoind
        cases hnoind
      -- Length of any lookup in t'.
      have hlen : ∀ k, (dictGet t'.vars k).map List.length =
          ((dictGet (dictAppend x t.vars "ind") k).map
            (fun l => l.length + ns.count k)) := by
        intro k
        rw [ht', dictGet_foldAppend, hzipfst]
      have hindlen : (dictGet t'.vars "ind").map List.length = some (l0.length + 1) := by
        rw [hlen, dictGet_dictAppend]
        have : ns.count "ind" = 0 := List.count_eq_zero.mpr hnoind'
        simp [hl0, this]
      -- Keys of t' are the keys of t.
      have hkeys : t'.vars.map Prod.fst = t.vars.map Prod.fst := by
        rw [ht', foldAppend_keys, dictAppend_keys]
      -- Establish alignment entry by entry.
      rw [alignedB, List.all_eq_true]
      intro p' hp'
      have hnd' : (t'.vars.map Prod.fst).Nodup := by rw [hkeys]; exact hnd
      have hget' : dictGet t'.vars p'.1 = some p'.2 := dictGet_of_mem_nodup hnd' hp'
      have hkmem : p'.1 ∈ t.vars.map Prod.fst := by
        rw [← hkeys]
        exact List.mem_map_of_mem Prod.fst hp'
      obtain ⟨q, hq, hqk⟩ := List.mem_map.mp hkmem
      by_cases hki : p'.1 = "ind"
      · -- The independent entry itself.
        have := hlen p'.1
        rw [hget', hki, dictGet_dictAppend] at this
        have hcnt : ns.count "ind" = 0 := List.count_eq_zero.mpr hnoind'
        simp [hl0, hcnt] at this
        rw [hindlen]
        simp [this]
      · -- A dependent entry: it is supplied exactly once.
        have hkns : p'.1 ∈ ns := by
          rw [List.all_eq_true] at hcov
          have := hcov q hq
          rw [hqk] at this
          simp only [Bool.or_eq_true, decide_eq_true_eq, List.any_eq_true] at this
          rcases this with h | ⟨k', hk', hkeq⟩
          · exact absurd h hki
          · have : k' = p'.1 := by simpa using hkeq
            rw [← this]; exact hk'
        have hcnt : ns.count p'.1 = 1 := List.count_eq_one_of_mem hnsnd hkns
        -- The original entry for this key and its aligned length.
        have hgetq : dictGet t.vars p'.1 = some q.2 := by
          rw [← hqk]; exact dictGet_of_mem_nodup hnd hq
        have hqlen : q.2.length = l0.length := by
          rw [alignedB, List.all_eq_true] at ha
          have := ha q hq
          rw [hl0] at this
          simpa using this
        have := hlen p'.1
        rw [hget', dictGet_dictAppend, if_neg hki, hgetq, hcnt] at this
        simp at this
        rw [hindlen]
        simp [this, hqlen]
    · rw [if_pos h2] at hsucc
      cases hsucc

/-- Witness for the corrected C3 theorem: a two-variable table with one
prior full insertion, extended by another full add_points insertion,
remains aligned; all hypotheses are discharged on concrete data. -/
theorem add_points_full_supply_aligned_witness :
    alignedB (((InterpTable.init ["a", "b"]).add_points 0 ["a", "b"] [1, 2]).1) = true := by
  exact add_points_full_supply_aligned (InterpTable.init ["a", "b"]) _ 0 ["a", "b"] [1, 2]
    (by decide) (by decide) (by decide) (by decide) (by decide) (by decide) rfl

/-- C10 (confirmed): add_points validates all names and then the name/value
count before any mutation, so an erroring call returns the table unchanged,
and the error cases are exactly an unregistered supplied name
(NoSuchVariable, checked first) or a count mismatch (NotEnoughValues). -/
theorem add_points_error_atomic (t : InterpTable) (x : Rat) (ns : List String) (vs : List Rat) :
    ((t.add_points x ns vs).2 = some .noSuchVariable ↔
      ns.any (fun v => !dictContains t.vars v) = true) ∧
    ((t.add_points x ns vs).2 = some .notEnoughValues ↔
      ns.any (fun v => !dictContains t.vars v) = false ∧ ns.length ≠ vs.length) ∧
    (∀ e, (t.add_points x ns vs).2 = some e → (t.add_points x ns vs).1 = t) := by
  rw [InterpTable.add_points]
  by_cases h1 : ns.any (fun v => !dictContains t.vars v) = true
  · simp [h1]
  · by_cases h2 : ns.length = vs.length
    · simp [h1, h2]
    · simp [h1, h2]

/-- Witness for C10: a call supplying an unregistered name errors with
NoSuchVariable and leaves the concrete table untouched. -/
theorem add_points_error_atomic_witness :
    ((InterpTable.init ["a"]).add_points 0 ["zz"] [1]).1 = InterpTable.init ["a"] := by
  exact (add_points_error_atomic (InterpTable.init ["a"]) 0 ["zz"] [1]).2.2
    .noSuchVariable (by decide)

/-! ## C5: time-source selection -/

/-- C5 counterexample: statistics in which SystemTime was registered only
through a Fault (its observed counter stays zero) while RMC was Observed.
The claim's selector (highest preference among Observed names) picks RMC,
but determine_time_source tests Seen — membership via Observed or Fault —
and returns SystemTime. -/
theorem fault_only_name_selected :
    determine_time_source (((PktStats.mk0 10).Fault "SystemTime" .ParseFault).Observed "RMC") =
      .ok .Time_SysTime ∧
    claimObservedSelector (((PktStats.mk0 10).Fault "SystemTime" .ParseFault).Observed "RMC") =
      some .Time_RMC ∧
    TimeSource.Time_SysTime ≠ TimeSource.Time_RMC := by
  refine ⟨by decide, by decide, by decide⟩

/-- C5 (corrected): determine_time_source returns the highest-preference
time source whose name has been Seen — registered by Observed or by Fault —
in the statistics, and raises NoTimeSource exactly when none of the four
names is Seen. -/
theorem determine_time_source_highest_seen (s : PktStats) :
    (∀ t : TimeSource, determine_time_source s = .ok t →
      s.Seen t.sourceName = true ∧ ∀ u : TimeSource, u.rank < t.rank → s.Seen u.sourceName = false) ∧
    (determine_time_source s = .error .noTimeSource ↔
      ∀ t : TimeSource, s.Seen t.sourceName = false) := by
  cases h1 : s.Seen "SystemTime"
  case true =>
    have hd : determine_time_source s = .ok .Time_SysTime := by
      simp [determine_time_source, h1]
    refine ⟨fun t ht => ?_, ?_⟩
    · rw [hd] at ht
      injection ht with ht
      subst ht
      refine ⟨h1, fun u hu => ?_⟩
      cases u <;> simp [TimeSource.rank] at hu
    · rw [hd]
      constructor
      · intro he
        exact Except.noConfusion he
      · intro hall
        exact absurd (hall .Time_SysTime) (by simp [TimeSource.sourceName, h1])
  case false =>
  cases h2 : s.Seen "GNSS"
  case true =>
    have hd : determine_time_source s = .ok .Time_GNSS := by
      simp [determine_time_source, h1, h2]
    refine ⟨fun t ht => ?_, ?_⟩
    · rw [hd] at ht
      injection ht with ht
      subst ht
      refine ⟨h2, fun u hu => ?_⟩
      cases u with
      | Time_SysTime => exact h1
      | Time_GNSS => simp [TimeSource.rank] at hu
      | Time_ZDA => simp [TimeSource.rank] at hu
      | Time_RMC => simp [TimeSource.rank] at hu
    · rw [hd]
      constructor
      · intro he
        exact Except.noConfusion he
      · intro hall
        exact absurd (hall .Time_GNSS) (by simp [TimeSource.sourceName, h2])
  case false =>
  cases h3 : s.Seen "ZDA"
  case true =>
    have hd : determine_time_source s = .ok .Time_ZDA := by
      simp [determine_time_source, h1, h2, h3]
    refine ⟨fun t ht => ?_, ?_⟩
    · rw [hd] at ht
      injection ht with ht
      subst ht
      refine ⟨h3, fun u hu => ?_⟩
      cases u with
      | Time_SysTime => exact h1
      | Time_GNSS => exact h2
      | Time_ZDA => simp [TimeSource.rank] at hu
      | Time_RMC => simp [TimeSource.rank] at hu
    · rw [hd]
      constructor
      · intro he
        exact Except.noConfusion he
      · intro hall
        exact absurd (hall .Time_ZDA) (by simp [TimeSource.sourceName, h3])
  case false =>
  cases h4 : s.Seen "RMC"
  case true =>
    have hd : determine_time_source s = .ok .Time_RMC := by
      simp [determine_time_source, h1, h2, h3, h4]
    refine ⟨fun t ht => ?_, ?_⟩
    · rw [hd] at ht
      injection ht with ht
      subst ht
      refine ⟨h4, fun u hu => ?_⟩
      cases u with
      | Time_SysTime => exact h1
      | Time_GNSS => exact h2
      | Time_ZDA => exact h3
      | Time_RMC => simp [TimeSource.rank] at hu
    · rw [hd]
      constructor
      · intro he
        exact Except.noConfusion he
      · intro hall
        exact absurd (hall .Time_RMC) (by simp [TimeSource.sourceName, h4])
  case false =>
    have hd : determine_time_source s = .error .noTimeSource := by
      simp [determine_time_source, h1, h2, h3, h4]
    refine ⟨fun t ht => ?_, ?_⟩
    · rw [hd] at ht
      exact Except.noConfusion ht
    · rw [hd]
      constructor
      · intro _ t
        cases t with
        | Time_SysTime => exact h1
        | Time_GNSS => exact h2
        | Time_ZDA => exact h3
        | Time_RMC => exact h4
      · intro _
        rfl

/-- Witness for the corrected C5 theorem: statistics that Observed both
GNSS and ZDA select GNSS, and no strictly preferred source was seen. -/
theorem determine_time_source_highest_seen_witness :
    (((PktStats.mk0 10).Observed "GNSS").Observed "ZDA").Seen
        TimeSource.Time_GNSS.sourceName = true ∧
    (((PktStats.mk0 10).Observed "GNSS").Observed "ZDA").Seen
        TimeSource.Time_SysTime.sourceName = false := by
  have h := (determine_time_source_highest_seen
    (((PktStats.mk0 10).Observed "GNSS").Observed "ZDA")).1 .Time_GNSS (by decide)
  exact ⟨h.1, h.2 .Time_SysTime (by decide)⟩

/-! ## C4: observation accessors on records that do not define them -/

/-- C4 counterexample: a Depth-classified NMEA2000 observation (PGN 128267)
does not carry time, yet Timestamp() does not produce a BadData condition —
it silently returns the sentinel value -1.0. -/
theorem timestamp_sentinel_not_badData :
    (mkRawN2000Obs 0 128267 (fun _ => 0) (fun _ => none)).name = "Depth" ∧
    (mkRawN2000Obs 0 128267 (fun _ => 0) (fun _ => none)).Timestamp = .ok (-1) ∧
    (Except.ok (-1) : Except PyExc Rat) ≠ .error .badData := by
  refine ⟨by decide, by decide, by decide⟩

/-- C4 (corrected): for every constructor-produced NMEA2000 or NMEA0183
observation, the Depth, Position, and WaterTemperature accessors raise
BadData when the record's classification does not define them (and the
classification is a function of the raw fields alone), but Timestamp on a
record that does not carry time instead returns the sentinel -1.0 without
raising. -/
theorem accessors_undefined_badData (e : Rat) (pgn : Nat) (fields : String → Rat)
    (descr : Nat → Option String) (e2 : Rat) (fmt : String) (fields2 : String → Rat)
    (sfields2 : String → String) :
    ((mkRawN2000Obs e pgn fields descr).name ≠ "Depth" →
      (mkRawN2000Obs e pgn fields descr).Depth = .error .badData) ∧
    (¬((mkRawN2000Obs e pgn fields descr).name = "GNSS" ∨
        (mkRawN2000Obs e pgn fields descr).name = "Position, Rapid Update") →
      (mkRawN2000Obs e pgn fields descr).Position = .error .badData) ∧
    ((mkRawN2000Obs e pgn fields descr).name ≠ "WaterTemperature" →
      (mkRawN2000Obs e pgn fields descr).WaterTemperature = .error .badData) ∧
    (pgn ≠ 126992 → (mkRawN2000Obs e pgn fields descr).Timestamp = .ok (-1)) ∧
    ((mkRawN0183Obs e2 fmt fields2 sfields2).name ≠ "DPT" →
      (mkRawN0183Obs e2 fmt fields2 sfields2).name ≠ "DBT" →
      (mkRawN0183Obs e2 fmt fields2 sfields2).Depth = .error .badData) ∧
    ((mkRawN0183Obs e2 fmt fields2 sfields2).name ≠ "GGA" →
      (mkRawN0183Obs e2 fmt fields2 sfields2).Position = .error .badData) ∧
    ((mkRawN0183Obs e2 fmt fields2 sfields2).name ≠ "MTW" →
      (mkRawN0183Obs e2 fmt fields2 sfields2).WaterTemperature = .error .badData) ∧
    (fmt ≠ "ZDA" → fmt ≠ "RMC" →
      (mkRawN0183Obs e2 fmt fields2 sfields2).Timestamp = .ok (.sentinel (-1))) := by
  refine ⟨?_, ?_, ?_, ?_, ?_, ?_, ?_, ?_⟩
  · intro h
    simp [RawN2000Obs.Depth, h]
  · intro h
    simp [RawN2000Obs.Position, h]
  · intro h
    simp [RawN2000Obs.WaterTemperature, h]
  · intro h
    have hname : (mkRawN2000Obs e pgn fields descr).hasTime = false := by
      simp [mkRawN2000Obs, h]
    simp [RawN2000Obs.Timestamp, hname]
  · intro h1 h2
    simp [RawN0183Obs.Depth, h1, h2]
  · intro h
    simp [RawN0183Obs.Position, h]
  · intro h
    simp [RawN0183Obs.WaterTemperature, h]
  · intro h1 h2
    have hname : (mkRawN0183Obs e2 fmt fields2 sfields2).hasTime = false := by
      simp [mkRawN0183Obs, h1, h2]
    simp [RawN0183Obs.Timestamp, hname]

/-- Witness for the corrected C4 theorem at concrete records: an Attitude
observation (PGN 127257) raises BadData from Depth and returns the
Timestamp sentinel; a DPT sentence raises BadData from WaterTemperature and
returns the Timestamp sentinel. -/
theorem accessors_undefined_badData_witness :
    (mkRawN2000Obs 0 127257 (fun _ => 0) (fun _ => none)).Depth = .error .badData ∧
    (mkRawN2000Obs 0 127257 (fun _ => 0) (fun _ => none)).Timestamp = .ok (-1) ∧
    (mkRawN0183Obs 0 "DPT" (fun _ => 0) (fun _ => "")).WaterTemperature = .error .badData ∧
    (mkRawN0183Obs 0 "DPT" (fun _ => 0) (fun _ => "")).Timestamp = .ok (.sentinel (-1)) := by
  have h := accessors_undefined_badData 0 127257 (fun _ => 0) (fun _ => none)
    0 "DPT" (fun _ => 0) (fun _ => "")
  exact ⟨h.1 (by decide), h.2.2.2.1 (by decide),
    h.2.2.2.2.2.2.1 (by decide), h.2.2.2.2.2.2.2 (by decide) (by decide)⟩

/-! ## C6 and C7: framing and version behaviour of the binary codec -/

theorem decodeSerialiserVersion_eq_none {b : List Nat}
    (h : b.length < 4 ∨ (u16at b 0 * 1000 + u16at b 2 < 1003 ∧ b.length < 16) ∨
      (1003 ≤ u16at b 0 * 1000 + u16at b 2 ∧ b.length < 22)) :
    decodeSerialiserVersion b = none := by
  simp only [decodeSerialiserVersion, numeric_file_version, wibl_file_version_major,
    wibl_file_version_minor]
  split_ifs <;> first | rfl | omega

theorem decodeSystemTime_eq_none {b : List Nat} (h : b.length ≠ 15) :
    decodeSystemTime b = none := by
  simp [decodeSystemTime, h]

theorem decodeAttitude_eq_none {b : List Nat} (h : b.length ≠ 38) :
    decodeAttitude b = none := by
  simp [decodeAttitude, h]

theorem decodeDepth_eq_none {b : List Nat} (h : b.length ≠ 38) :
    decodeDepth b = none := by
  simp [decodeDepth, h]

theorem decodeCOG_eq_none {b : List Nat} (h : b.length ≠ 30) :
    decodeCOG b = none := by
  simp [decodeCOG, h]

theorem decodeGNSS_eq_none {b : List Nat} (h : b.length ≠ 87) :
    decodeGNSS b = none := by
  simp [decodeGNSS, h]

theorem decodeEnvironment_eq_none {b : List Nat} (h : b.length ≠ 40) :
    decodeEnvironment b = none := by
  simp [decodeEnvironment, h]

theorem decodeTemperature_eq_none {b : List Nat} (h : b.length ≠ 23) :
    decodeTemperature b = none := by
  simp [decodeTemperature, h]

theorem decodeHumidity_eq_none {b : List Nat} (h : b.length ≠ 23) :
    decodeHumidity b = none := by
  simp [decodeHumidity, h]

theorem decodePressure_eq_none {b : List Nat} (h : b.length ≠ 23) :
    decodePressure b = none := by
  simp [decodePressure, h]

theorem decodeSerialString_eq_none {b : List Nat} (h : b.length < 4) :
    decodeSerialString b = none := by
  simp only [decodeSerialString]
  split_ifs <;> first | rfl | omega

theorem decodeMotion_eq_none {b : List Nat} (h : b.length ≠ 32) :
    decodeMotion b = none := by
  simp [decodeMotion, h]

theorem decodeMetadata_eq_none {b : List Nat}
    (h : b.length < 8 + u32at b 0 ∨ b.length < 8 + u32at b 0 + u32at b (4 + u32at b 0)) :
    decodeMetadata b = none := by
  simp only [decodeMetadata]
  split_ifs <;> first | rfl | omega

theorem decodeAlgorithmRequest_eq_none {b : List Nat}
    (h : b.length < 8 + u32at b 0 ∨ b.length < 8 + u32at b 0 + u32at b (4 + u32at b 0)) :
    decodeAlgorithmRequest b = none := by
  simp only [decodeAlgorithmRequest]
  split_ifs <;> first | rfl | omega

theorem decodeJSONMetadata_eq_none {b : List Nat} (h : b.length < 4 + u32at b 0) :
    decodeJSONMetadata b = none := by
  simp only [decodeJSONMetadata]
  split_ifs <;> first | rfl | omega

theorem decodeNMEA0183Filter_eq_none {b : List Nat} (h : b.length < 4 + u32at b 0) :
    decodeNMEA0183Filter b = none := by
  simp only [decodeNMEA0183Filter]
  split_ifs <;> first | rfl | omega

theorem decodeSensorScales_eq_none {b : List Nat} (h : b.length < 4 + u32at b 0) :
    decodeSensorScales b = none := by
  simp only [decodeSensorScales]
  split_ifs <;> first | rfl | omega

theorem decodeRawIMU_eq_none {b : List Nat} (h : b.length ≠ 18) :
    decodeRawIMU b = none := by
  simp [decodeRawIMU, h]

theorem decodeSetup_eq_none {b : List Nat} (h : b.length < 4 + u32at b 0) :
    decodeSetup b = none := by
  simp only [decodeSetup]
  split_ifs <;> first | rfl | omega

/-- A recognized packet type whose payload fails its layout decodes to
some none: the struct.error case that next_packet converts into a
PacketTranscriptionError. -/
theorem decodeDispatch_mismatch (pktId : Nat) (b : List Nat) (hle : pktId ≤ 18)
    (hmm : layoutMismatch pktId b) : decodeDispatch pktId b = some none := by
  interval_cases pktId <;>
    simp only [layoutMismatch] at hmm <;>
    norm_num at hmm ⊢ <;>
    simp only [decodeDispatch] <;>
    norm_num <;>
    first
      | exact decodeSerialiserVersion_eq_none hmm
      | exact decodeSystemTime_eq_none hmm
      | exact decodeAttitude_eq_none hmm
      | exact decodeDepth_eq_none hmm
      | exact decodeCOG_eq_none hmm
      | exact decodeGNSS_eq_none hmm
      | exact decodeEnvironment_eq_none hmm
      | exact decodeTemperature_eq_none hmm
      | exact decodeHumidity_eq_none hmm
      | exact decodePressure_eq_none hmm
      | exact decodeSerialString_eq_none hmm
      | exact decodeMotion_eq_none hmm
      | exact decodeMetadata_eq_none hmm
      | exact decodeAlgorithmRequest_eq_none hmm
      | exact decodeJSONMetadata_eq_none hmm
      | exact decodeNMEA0183Filter_eq_none hmm
      | exact decodeSensorScales_eq_none hmm
      | exact decodeRawIMU_eq_none hmm
      | exact decodeSetup_eq_none hmm

/-- C6 counterexample: a stream whose header claims a 100-byte SerialString
payload but whose remaining 10 bytes are fewer than claimed still decodes
to a packet — the recognized-type truncation does not raise a
PacketTranscriptionError here, because the delivered bytes happen to match
the variant's layout. -/
theorem truncated_serialString_decodes :
    next_packet [10, 0, 0, 0, 100, 0, 0, 0, 1, 0, 0, 0, 36, 65, 66, 67, 68, 69] =
      .packet (.serialString 1 [36, 65, 66, 67, 68, 69]) ∧
    ([10, 0, 0, 0, 100, 0, 0, 0, 1, 0, 0, 0, 36, 65, 66, 67, 68, 69] : List Nat).length - 8 <
      u32at [10, 0, 0, 0, 100, 0, 0, 0, 1, 0, 0, 0, 36, 65, 66, 67, 68, 69] 4 ∧
    next_packet [10, 0, 0, 0, 100, 0, 0, 0, 1, 0, 0, 0, 36, 65, 66, 67, 68, 69] ≠
      .transcriptionError := by
  refine ⟨by decide, by decide, by decide⟩

/-- C6 (corrected): at a frame boundary with 0-7 trailing bytes next_packet
signals a clean end-of-stream; and when the 8-byte header is read, the type
is recognized, the payload is truncated (fewer bytes remain than the header
claims) and the delivered bytes do not match the variant's layout, it
raises PacketTranscriptionError rather than crashing.  (The counterexample
shows the layout-mismatch condition is necessary: a truncated payload that
still matches the layout decodes to a packet.) -/
theorem next_packet_framing (stream : List Nat) :
    (stream.length < 8 → next_packet stream = .endOfStream) ∧
    (8 ≤ stream.length → u32at stream 0 ≤ 18 →
      stream.length - 8 < u32at stream 4 →
      layoutMismatch (u32at stream 0) ((stream.drop 8).take (u32at stream 4)) →
      next_packet stream = .transcriptionError) := by
  constructor
  · intro h
    simp [next_packet, h]
  · intro h8 hid _htr hmm
    have hno : ¬ stream.length < 8 := by omega
    simp only [next_packet, hno, if_false]
    rw [decodeDispatch_mismatch _ _ hid hmm]

/-- Witness for the corrected C6 theorem: a 3-byte stream is a clean end of
stream, and a stream claiming a 100-byte SystemTime payload with only 5
bytes remaining (which do not form the 15-byte SystemTime layout) raises
PacketTranscriptionError. -/
theorem next_packet_framing_witness :
    next_packet [1, 2, 3] = .endOfStream ∧
    next_packet [1, 0, 0, 0, 100, 0, 0, 0, 1, 2, 3, 4, 5] = .transcriptionError := by
  refine ⟨(next_packet_framing [1, 2, 3]).1 (by decide), ?_⟩
  exact (next_packet_framing [1, 0, 0, 0, 100, 0, 0, 0, 1, 2, 3, 4, 5]).2
    (by decide) (by decide) (by decide) (by decide)

/-- C7 (confirmed): a SerialiserVersion payload whose embedded major.minor
compares (as major*1000 + minor) below the codec baseline 1.3 is decoded
with the short layout — two u16 version fields plus six u16 sub-version
fields, 16 bytes in all — and the IMU sub-version is synthesized as
(0, 0, 0); a payload at or above the baseline is decoded with the full
nine-u16 sub-version layout (22 bytes), storing all nine fields. -/
theorem serialiser_version_layout_branch (b : List Nat) :
    (b.length = 16 →
      u16at b 0 * 1000 + u16at b 2 <
        numeric_file_version wibl_file_version_major wibl_file_version_minor →
      decodeSerialiserVersion b = some (.serialiserVersion (u16at b 0) (u16at b 2)
        (u16at b 4, u16at b 6, u16at b 8) (u16at b 10, u16at b 12, u16at b 14) (0, 0, 0))) ∧
    (b.length = 22 →
      numeric_file_version wibl_file_version_major wibl_file_version_minor ≤
        u16at b 0 * 1000 + u16at b 2 →
      decodeSerialiserVersion b = some (.serialiserVersion (u16at b 0) (u16at b 2)
        (u16at b 4, u16at b 6, u16at b 8) (u16at b 10, u16at b 12, u16at b 14)
        (u16at b 16, u16at b 18, u16at b 20))) := by
  constructor
  · intro hlen hver
    simp only [numeric_file_version, wibl_file_version_major, wibl_file_version_minor]
      at hver ⊢
    simp only [decodeSerialiserVersion, numeric_file_version, wibl_file_version_major,
      wibl_file_version_minor]
    split_ifs <;> first | rfl | omega
  · intro hlen hver
    simp only [numeric_file_version, wibl_file_version_major, wibl_file_version_minor]
      at hver ⊢
    simp only [decodeSerialiserVersion, numeric_file_version, wibl_file_version_major,
      wibl_file_version_minor]
    split_ifs <;> first | rfl | omega

/-- Witness for C7 on concrete payloads: the legacy 16-byte payload for
version 1.2 with sub-versions 3..8 decodes with a zero IMU sub-version, and
the 22-byte payload for version 1.3 with sub-versions 3..11 decodes all
nine fields. -/
theorem serialiser_version_layout_branch_witness :
    decodeSerialiserVersion [1, 0, 2, 0, 3, 0, 4, 0, 5, 0, 6, 0, 7, 0, 8, 0] =
      some (.serialiserVersion 1 2 (3, 4, 5) (6, 7, 8) (0, 0, 0)) ∧
    decodeSerialiserVersion
        [1, 0, 3, 0, 3, 0, 4, 0, 5, 0, 6, 0, 7, 0, 8, 0, 9, 0, 10, 0, 11, 0] =
      some (.serialiserVersion 1 3 (3, 4, 5) (6, 7, 8) (9, 10, 11)) := by
  constructor
  · have h := (serialiser_version_layout_branch
      [1, 0, 2, 0, 3, 0, 4, 0, 5, 0, 6, 0, 7, 0, 8, 0]).1 (by decide) (by decide)
    rw [h]
    decide
  · have h := (serialiser_version_layout_branch
      [1, 0, 3, 0, 3, 0, 4, 0, 5, 0, 6, 0, 7, 0, 8, 0, 9, 0, 10, 0, 11, 0]).2
      (by decide) (by decide)
    rw [h]
    decide

/-! ## C2: packet round-trip through the binary codec -/

/-- C2 (code_bug): the encoder cannot be a left inverse of the decoder.
Temperature.payload packs the temperature source into the temperature slot
(logger_file.py line 793), so decoding the encoding of the packet with
tempSource 1 and temperature 300 yields temperature 1, and RawIMU.payload
reads the unbound attribute gyrpo (line 1710), so it raises AttributeError
on every packet instead of producing a payload. -/
theorem roundTrip_fails_temperature_rawIMU :
    Temperature_buffer_constructor (Temperature_payload ⟨0, 0, 0, 1, 300⟩) =
      some ⟨0, 0, 0, 1, 1⟩ ∧
    some (⟨0, 0, 0, 1, 1⟩ : TemperaturePkt) ≠ some (⟨0, 0, 0, 1, 300⟩ : TemperaturePkt) ∧
    (∀ p : RawIMUPkt, RawIMU_payload p = .error "AttributeError: gyrpo") := by
  refine ⟨by decide, by decide, ?_⟩
  intro p
  rfl

end OpenVBI
